import Mathlib

/-
Verification of the batch-changes view (`src/components/ViewBatchChangesCommand.tsx`):
a shallow embedding of its data model, status projectors, action wiring and the
fetch/cancel/refresh state machine, with theorems checking the specification's
claims against the embedded code.
-/

namespace SG

/-- JavaScript `String.prototype.toLowerCase` / `toLocaleLowerCase` restricted to
the ASCII enum strings this view lowercases (lifecycle and review states). -/
def toLowerCase (s : String) : String :=
  String.mk (s.data.map Char.toLower)

/-- The connection handle; only its `instance` base-URL field is used by this view. -/
structure Sourcegraph where
  «instance» : String
  deriving DecidableEq, Repr

/-- Owning namespace of a batch change (`batchChange.namespace`). -/
structure NamespaceRef where
  id : String
  namespaceName : String
  deriving DecidableEq, Repr

/-- `batchChange.creator`: display name may be absent/empty, username is the fallback. -/
structure Creator where
  displayName : Option String
  username : String
  deriving DecidableEq, Repr

/-- `batchChange.changesetsStats`; counts are non-negative (API aggregate counts). -/
structure ChangesetsStats where
  total : Nat
  «open» : Nat
  closed : Nat
  merged : Nat
  failed : Nat
  deriving DecidableEq, Repr

/-- A batch-change record as consumed by the view. -/
structure BatchChange where
  id : String
  name : String
  «namespace» : NamespaceRef
  state : String
  creator : Creator
  updatedAt : String
  changesetsStats : ChangesetsStats
  url : String
  deriving DecidableEq, Repr

/-- The closed enumeration of changeset lifecycle states the source switches over. -/
inductive ChangesetState where
  | unpublished
  | processing
  | retrying
  | «open»
  | closed
  | merged
  | failed
  deriving DecidableEq, Repr

/-- The raw API string for a lifecycle state (the value the source matches on and
interpolates into URLs and keywords). -/
def ChangesetState.toStr : ChangesetState → String
  | .unpublished => "UNPUBLISHED"
  | .processing => "PROCESSING"
  | .retrying => "RETRYING"
  | .«open» => "OPEN"
  | .closed => "CLOSED"
  | .merged => "MERGED"
  | .failed => "FAILED"

/-- `changeset.externalURL` (present only once published to a code host). -/
structure ExternalURL where
  url : String
  deriving DecidableEq, Repr

/-- `changeset.repository`. -/
structure Repository where
  name : String
  deriving DecidableEq, Repr

/-- A changeset record as consumed by the view. -/
structure Changeset where
  id : String
  state : ChangesetState
  reviewState : Option String
  externalID : Option String
  externalURL : Option ExternalURL
  repository : Repository
  updatedAt : String
  deriving DecidableEq, Repr

/-- Icon glyphs used by the view. -/
inductive IconSource where
  | circle
  | checkmark
  | xmarkCircle
  | exclamationMark
  | document
  | clock
  deriving DecidableEq, Repr

/-- Tint colors used by the view. -/
inductive Color where
  | green
  | red
  | purple
  deriving DecidableEq, Repr

/-- An icon value: a glyph plus an optional tint (absent tint = untinted/default). -/
structure IconSpec where
  source : IconSource
  tintColor : Option Color
  deriving DecidableEq, Repr

/-- The secondary (mutation) action a changeset item may expose. -/
inductive SecondaryActionKind where
  | retry
  | publish
  deriving DecidableEq, Repr

/-- Result of `ChangesetItem`'s switch on `changeset.state`: icon, the `subtitle`
variable, and the optional publish/retry secondary action. -/
structure ChangesetProjection where
  icon : IconSpec
  subtitle : String
  secondaryAction : Option SecondaryActionKind
  deriving DecidableEq, Repr

/-- Embedding of the `switch (changeset.state)` in `ChangesetItem` (source lines
170-240). Initial values before the switch are icon = untinted circle and
subtitle = lowercased state; each branch overrides as the source does. For
`OPEN`, subtitle becomes `reviewState?.toLocaleLowerCase() || ""` (empty when
the review state is absent) and the icon glyph is dispatched on the review-state
string (the JS switch's successive equality tests). -/
def projectChangeset (c : Changeset) : ChangesetProjection :=
  match c.state with
  | .«open» =>
      { icon := { source :=
                    if c.reviewState = some "APPROVED" then .checkmark
                    else if c.reviewState = some "CHANGES_REQUESTED" then .xmarkCircle
                    else .circle
                , tintColor := some .green }
      , subtitle := (c.reviewState.map toLowerCase).getD ""
      , secondaryAction := none }
  | .merged =>
      { icon := { source := .checkmark, tintColor := some .purple }
      , subtitle := toLowerCase "MERGED"
      , secondaryAction := none }
  | .closed =>
      { icon := { source := .xmarkCircle, tintColor := some .red }
      , subtitle := toLowerCase "CLOSED"
      , secondaryAction := none }
  | .failed =>
      { icon := { source := .exclamationMark, tintColor := some .red }
      , subtitle := toLowerCase "FAILED"
      , secondaryAction := some .retry }
  | .unpublished =>
      { icon := { source := .document, tintColor := none }
      , subtitle := toLowerCase "UNPUBLISHED"
      , secondaryAction := some .publish }
  | .processing =>
      { icon := { source := .clock, tintColor := none }
      , subtitle := toLowerCase "PROCESSING"
      , secondaryAction := none }
  | .retrying =>
      { icon := { source := .clock, tintColor := none }
      , subtitle := toLowerCase "RETRYING"
      , secondaryAction := none }

/-- The rendered `subtitle` prop of the changeset `List.Item` (source line 246):
an optional `#externalID ` tag (JS truthiness: absent or empty id renders no tag)
followed by the switch-computed subtitle. -/
def changesetDisplaySubtitle (c : Changeset) : String :=
  (match c.externalID with
   | some e => if e = "" then "" else "#" ++ e ++ " "
   | none => "") ++ (projectChangeset c).subtitle

/-- The canonical URL of a changeset (source line 242):
`changeset.externalURL?.url || instance + batchChange.url + "?status=" + state`.
JS `||` falls through when the external url is absent or the empty string. -/
def changesetURL (src : Sourcegraph) (b : BatchChange) (c : Changeset) : String :=
  match c.externalURL with
  | some e =>
      if e.url = "" then src.«instance» ++ b.url ++ "?status=" ++ c.state.toStr
      else e.url
  | none => src.«instance» ++ b.url ++ "?status=" ++ c.state.toStr

/-- `const author = batchChange.creator.displayName || batchChange.creator.username`
(source line 47); JS `||` falls through when the display name is absent or empty. -/
def author (c : Creator) : String :=
  match c.displayName with
  | some d => if d = "" then c.username else d
  | none => c.username

/-- The batch-change item subtitle (source line 73):
`updated ? "by " + author + ", updated " + updated : author`. The `updated`
argument is the result of the `DateTime.fromISO(...).toRelative()` boundary,
which is `none` when the timestamp fails to parse (luxon yields an invalid
date, `toRelative` yields `null`, and the enclosing try/catch swallows any
thrown error), so the projector never throws. -/
def batchChangeSubtitle (b : BatchChange) (updated : Option String) : String :=
  match updated with
  | some u =>
      if u = "" then author b.creator
      else "by " ++ author b.creator ++ ", updated " ++ u
  | none => author b.creator

/-- The batch-change accessory summary (source lines 74-80):
`changesetsStats.total ? merged + " / " + (closed + merged + open) + " / " + total : undefined`. -/
def batchChangeAccessoryTitle (s : ChangesetsStats) : Option String :=
  if s.total ≠ 0 then
    some (toString s.merged ++ " / " ++ toString (s.closed + s.merged + s.«open») ++ " / "
      ++ toString s.total)
  else none

/-- The batch-change list section subtitle (source line 22):
`(count > 100 ? count + "+" : count) + " batch changes"`. -/
def batchChangesSectionSubtitle (count : Nat) : String :=
  (if 100 < count then toString count ++ "+" else toString count) ++ " batch changes"

/-- Where a cancellation signal handed to a remote call comes from. -/
inductive SignalSource where
  | freshAbortController
  | listCancelRef
  deriving DecidableEq, Repr

/-- One observable step of a changeset item's publish/retry `onAction` handler. -/
inductive PublishStep where
  | publishCall (signal : SignalSource) (batchChangeID changesetID : String)
  | showSuccessToast (title : String)
  | sleep (ms : Nat)
  | refreshChangesets
  | refreshBatchChanges
  deriving DecidableEq, Repr

/-- `delayedRefreshChangesets` (source lines 165-168): sleep 10000 ms, then call
the enclosing changeset list's `refreshChangesets` (its `load`). -/
def delayedRefreshChangesets : List PublishStep :=
  [.sleep 10000, .refreshChangesets]

/-- The trace of the secondary action's `onAction` handler (source lines 199-234):
for `FAILED` (retry) and `UNPUBLISHED` (publish), await
`publishChangeset(new AbortController().signal, src, batchChange.id, changeset.id)`,
show a success toast whose title distinguishes retry from publishing, then run
`delayedRefreshChangesets`. Other states expose no such handler. -/
def publishActionSteps (b : BatchChange) (c : Changeset) : Option (List PublishStep) :=
  match c.state with
  | .failed =>
      some ([.publishCall .freshAbortController b.id c.id,
             .showSuccessToast "Changeset has been submitted for retry!"]
            ++ delayedRefreshChangesets)
  | .unpublished =>
      some ([.publishCall .freshAbortController b.id c.id,
             .showSuccessToast "Changeset has been submitted for publishing!"]
            ++ delayedRefreshChangesets)
  | _ => none

/-- Recognizes a refresh of the enclosing changeset list in a handler trace. -/
def isRefreshChangesets : PublishStep → Bool
  | .refreshChangesets => true
  | _ => false

/-- Recognizes a refresh of the batch-change list in a handler trace. -/
def isRefreshBatchChanges : PublishStep → Bool
  | .refreshBatchChanges => true
  | _ => false

/-- The kinds of actions a changeset item's `ActionPanel` renders (source lines
250-269), in order; the publish/retry secondary action slot may be empty. -/
inductive ActionKind where
  | openInBrowser
  | retryChangeset
  | publishChangeset
  | refreshChangesets
  | copyToClipboard
  | openChangesetsInBrowser
  deriving DecidableEq, Repr

/-- The action list of a changeset item (source lines 250-269): open-in-browser,
then the optional secondary action from the state switch, then refresh, copy,
and open-changesets-in-browser. -/
def changesetActions (c : Changeset) : List ActionKind :=
  [.openInBrowser]
  ++ (match (projectChangeset c).secondaryAction with
      | some .retry => [.retryChangeset]
      | some .publish => [.publishChangeset]
      | none => [])
  ++ [.refreshChangesets, .copyToClipboard, .openChangesetsInBrowser]

/-- Recognizes the retry action. -/
def isRetryAction : ActionKind → Bool
  | .retryChangeset => true
  | _ => false

/-- Recognizes the publish action. -/
def isPublishAction : ActionKind → Bool
  | .publishChangeset => true
  | _ => false

/-- Toast styles used by the fetch controllers. -/
inductive ToastStyle where
  | success
  | failure
  deriving DecidableEq, Repr

/-- The failure toast raised by a `load()` catch block (source lines 311-323 and
372-384): style Failure, the hook's fixed title, `String(error)` as message, and
a "View details" primary action that pushes a Detail view rendering the error. -/
structure FailureToast where
  style : ToastStyle
  title : String
  message : String
  primaryActionTitle : String
  detailMarkdown : String
  detailNavigationTitle : String
  deriving DecidableEq, Repr

/-- Builds the catch block's toast for a given hook title and error string. -/
def failureToast (errTitle err : String) : FailureToast :=
  { style := .failure
  , title := errTitle
  , message := err
  , primaryActionTitle := "View details"
  , detailMarkdown := "**" ++ errTitle ++ ":** " ++ err
  , detailNavigationTitle := "Unexpected error" }

/-- Modelled from the spec: `src/sourcegraph/gql` (the Remote Data Port, not among
the sources) must "check the supplied cancellation signal and abort the underlying
network operation promptly" (spec section 5), and a cancelled call reaches the
controller as "cancellation-as-failure" (spec section 4.1): aborting the
`AbortController` of an in-flight request rejects its promise with an abort
error, whose `String(error)` form is this string. -/
def abortErrorString : String := "AbortError: This operation was aborted"

/-- The `items`/`isLoading` pair of one fetch hook's React state
(`BatchChangesState.batchChanges`/`isLoading`, `ChangesetsState.changesets`/`isLoading`). -/
structure FetchState (T : Type) where
  items : List T
  isLoading : Bool
  deriving DecidableEq, Repr

/-- How the network settles one request: success carries the optional nodes list
(`resp?....nodes || []` defaults a missing collection to empty), failure carries
a non-cancellation error's string form. -/
inductive Outcome (T : Type) where
  | success (resp : Option (List T))
  | failure (err : String)
  deriving DecidableEq, Repr

/-- Events driving one fetch hook: a `load()` call, or the network settling the
current (non-aborted) in-flight request. A superseded request never settles via
`resolve`: aborting it rejects its promise, and that rejection's catch runs
within the superseding `call` step (see `stepCall`). -/
inductive FetchEvent (T : Type) where
  | call
  | resolve (o : Outcome T)
  deriving DecidableEq, Repr

/-- Full state of one fetch hook: the React state, the id of the current
non-aborted in-flight request (`cancelRef.current`, ids issued in call order),
the next fresh id, the failure toasts shown so far, and a ghost field recording
which request's success response currently populates `items` (`none` while
`items` is the cleared empty list). -/
structure LoopState (T : Type) where
  fetch : FetchState T
  pending : Option Nat
  nextId : Nat
  toasts : List FailureToast
  itemsFrom : Option Nat
  deriving DecidableEq, Repr

/-- Hook state at mount: `useState` starts with empty items and `isLoading: true`;
no request is in flight and no toast has been shown. -/
def initState {T : Type} : LoopState T :=
  { fetch := { items := [], isLoading := true }
  , pending := none
  , nextId := 0
  , toasts := []
  , itemsFrom := none }

/-- A `load()` call (source lines 293-330 / 354-391), embedding the JS event-loop
ordering. Synchronously: `cancelRef.current?.abort()` aborts any in-flight
request, a fresh controller is installed, and `setState` clears `items` and sets
`isLoading: true`. If a request was aborted, its promise rejection runs the
catch block as a microtask before any further event: the undiscriminated catch
shows the failure toast for the abort error and sets `isLoading: false` over the
new request's state. The new request is in flight afterwards. -/
def stepCall {T : Type} (errTitle : String) (s : LoopState T) : LoopState T :=
  match s.pending with
  | none =>
      { s with
        fetch := { items := [], isLoading := true }
      , pending := some s.nextId
      , nextId := s.nextId + 1
      , itemsFrom := none }
  | some _ =>
      { fetch := { items := [], isLoading := false }
      , pending := some s.nextId
      , nextId := s.nextId + 1
      , toasts := s.toasts ++ [failureToast errTitle abortErrorString]
      , itemsFrom := none }

/-- The network settles the current in-flight request (the `await` resumes and
the rest of `load()` runs atomically as a microtask, before any other event).
Success: `items := resp?....nodes || []`, `isLoading := false`. Failure (a
non-cancellation rejection): the catch block shows the failure toast and sets
`isLoading := false`, leaving `items` as they are. A settled request is no
longer in flight. When nothing is in flight the event is a no-op. -/
def stepResolve {T : Type} (errTitle : String) (s : LoopState T) : Outcome T → LoopState T
  | .success resp =>
      match s.pending with
      | some i =>
          { s with
            fetch := { items := resp.getD [], isLoading := false }
          , pending := none
          , itemsFrom := some i }
      | none => s
  | .failure err =>
      match s.pending with
      | some _ =>
          { s with
            fetch := { items := s.fetch.items, isLoading := false }
          , pending := none
          , toasts := s.toasts ++ [failureToast errTitle err] }
      | none => s

/-- One event of the fetch hook's event loop. -/
def step {T : Type} (errTitle : String) (s : LoopState T) : FetchEvent T → LoopState T
  | .call => stepCall errTitle s
  | .resolve o => stepResolve errTitle s o

/-- Runs a sequence of events from a given hook state. -/
def run {T : Type} (errTitle : String) (s : LoopState T) (events : List (FetchEvent T)) :
    LoopState T :=
  events.foldl (step errTitle) s

/-- The toast title of the batch-changes hook's catch block (source line 313). -/
def getBatchChangesTitle : String := "Get batch changes failed"

/-- The batch-changes hook run from its mount state. -/
def runBatchChanges (events : List (FetchEvent Unit)) : LoopState Unit :=
  run getBatchChangesTitle initState events

/-- Number of non-cancellation failure deliveries in an event trace. -/
def nonCancellationFailures {T : Type} (events : List (FetchEvent T)) : Nat :=
  events.countP fun e =>
    match e with
    | .resolve (.failure _) => true
    | _ => false

/-- Formalization of claim C1 as stated: if only the most recent load's writes —
its synchronous clear/loading write and its own response — are ever applied to
items/isLoading, then while the most recent load is still in flight the state
must show the loading flag that load set. -/
def onlyLatestLoadApplies : Prop :=
  ∀ events : List (FetchEvent Unit),
    (runBatchChanges events).pending.isSome = true →
    (runBatchChanges events).fetch.isLoading = true

/-- The staleness property the code does maintain: request ids are issued in
call order, the in-flight request (if any) is the most recent call, and the
items shown are either the cleared empty list or the success response of the
most recent call. -/
def latestWins {T : Type} (s : LoopState T) : Prop :=
  (∀ i, s.pending = some i → i + 1 = s.nextId) ∧
  (∀ i, s.itemsFrom = some i → i + 1 = s.nextId) ∧
  (s.itemsFrom = none → s.fetch.items = [])

/-- Formalization of claim C2 as stated: cancellation failures are detected and
suppressed, so user-visible failure toasts can only come from non-cancellation
failures — over any event trace there are at most as many toasts as
non-cancellation failure deliveries. -/
def cancellationSuppressed : Prop :=
  ∀ events : List (FetchEvent Unit),
    (runBatchChanges events).toasts.length ≤ nonCancellationFailures events

/-- Concrete source connection used in witnesses. -/
def sampleSrc : Sourcegraph := ⟨"https://sourcegraph.example.com"⟩

/-- Concrete namespace used in witnesses. -/
def sampleNamespace : NamespaceRef := ⟨"ns1", "myorg"⟩

/-- Concrete creator used in witnesses. -/
def sampleCreator : Creator := ⟨some "alice", "alice-handle"⟩

/-- Concrete changeset-count aggregate used in witnesses: total 10, 3 open,
2 closed, 5 merged, 0 failed. -/
def sampleStats : ChangesetsStats := ⟨10, 3, 2, 5, 0⟩

/-- Concrete batch change used in witnesses. -/
def sampleBatchChange : BatchChange :=
  ⟨"bc1", "my-campaign", sampleNamespace, "OPEN", sampleCreator,
   "2022-05-01T10:00:00Z", sampleStats, "/batch-changes/1"⟩

/-- Concrete repository used in witnesses. -/
def sampleRepository : Repository := ⟨"github.com/example/repo"⟩

/-- An OPEN changeset with review state APPROVED and no external identifiers. -/
def openApprovedChangeset : Changeset :=
  ⟨"cs1", .«open», some "APPROVED", none, none, sampleRepository, "2022-05-01T10:00:00Z"⟩

/-- A FAILED changeset. -/
def failedChangeset : Changeset :=
  ⟨"cs2", .failed, none, none, none, sampleRepository, "2022-05-01T10:00:00Z"⟩

/-- An UNPUBLISHED changeset. -/
def unpublishedChangeset : Changeset :=
  ⟨"cs3", .unpublished, none, none, none, sampleRepository, "2022-05-01T10:00:00Z"⟩

/-- A CLOSED changeset with no external URL. -/
def closedNoURLChangeset : Changeset :=
  ⟨"cs4", .closed, none, none, none, sampleRepository, "2022-05-01T10:00:00Z"⟩

/-- A CLOSED changeset whose external URL is present but holds the empty string. -/
def emptyExternalURLChangeset : Changeset :=
  ⟨"cs5", .closed, none, none, some ⟨""⟩, sampleRepository, "2022-05-01T10:00:00Z"⟩

/-- C4: a changeset item's action panel exposes exactly one retry action and no
publish action when the state is FAILED, exactly one publish action and no retry
action when UNPUBLISHED, and neither action in every other lifecycle state. -/
theorem c4_secondaryActions (c : Changeset) :
    (c.state = .failed →
      (changesetActions c).countP isRetryAction = 1 ∧
      (changesetActions c).countP isPublishAction = 0) ∧
    (c.state = .unpublished →
      (changesetActions c).countP isPublishAction = 1 ∧
      (changesetActions c).countP isRetryAction = 0) ∧
    (c.state ≠ .failed → c.state ≠ .unpublished →
      (changesetActions c).countP isRetryAction = 0 ∧
      (changesetActions c).countP isPublishAction = 0) := by
  rcases c with ⟨id, st, rs, eid, eu, repo, upd⟩
  cases st <;>
    simp [changesetActions, projectChangeset, List.countP_cons, isRetryAction, isPublishAction]

/-- C4 witness: the FAILED sample exposes exactly one retry action and the
UNPUBLISHED sample exactly one publish action. -/
theorem c4_secondaryActions_witness :
    (changesetActions failedChangeset).countP isRetryAction = 1 ∧
    (changesetActions unpublishedChangeset).countP isPublishAction = 1 :=
  ⟨((c4_secondaryActions failedChangeset).1 rfl).1,
   ((c4_secondaryActions unpublishedChangeset).2.1 rfl).1⟩

/-- C5: for a changeset in state OPEN the projector's subtitle is the lowercased
review state (empty when absent), the icon glyph is checkmark for APPROVED,
x-mark-circle for CHANGES_REQUESTED and open circle otherwise, and the tint is
green regardless of review state. -/
theorem c5_openProjection (c : Changeset) (h : c.state = ChangesetState.«open») :
    (∀ r, c.reviewState = some r → (projectChangeset c).subtitle = toLowerCase r) ∧
    (c.reviewState = none → (projectChangeset c).subtitle = "") ∧
    (c.reviewState = some "APPROVED" → (projectChangeset c).icon.source = .checkmark) ∧
    (c.reviewState = some "CHANGES_REQUESTED" →
      (projectChangeset c).icon.source = .xmarkCircle) ∧
    (c.reviewState ≠ some "APPROVED" → c.reviewState ≠ some "CHANGES_REQUESTED" →
      (projectChangeset c).icon.source = .circle) ∧
    (projectChangeset c).icon.tintColor = some Color.green := by
  rcases c with ⟨id, st, rs, eid, eu, repo, upd⟩
  simp only at h
  subst h
  refine ⟨?_, ?_, ?_, ?_, ?_, ?_⟩
  · intro r hr
    subst hr
    rfl
  · intro hr
    subst hr
    rfl
  · intro hr
    subst hr
    rfl
  · intro hr
    subst hr
    rfl
  · intro h1 h2
    simp only [projectChangeset]
    rw [if_neg h1, if_neg h2]
  · rfl

/-- C5 witness: the OPEN + APPROVED sample projects icon checkmark, tint green,
subtitle "approved". -/
theorem c5_openProjection_witness :
    (projectChangeset openApprovedChangeset).icon.source = IconSource.checkmark ∧
    (projectChangeset openApprovedChangeset).icon.tintColor = some Color.green ∧
    (projectChangeset openApprovedChangeset).subtitle = "approved" :=
  ⟨(c5_openProjection openApprovedChangeset rfl).2.2.1 rfl,
   (c5_openProjection openApprovedChangeset rfl).2.2.2.2.2,
   ((c5_openProjection openApprovedChangeset rfl).1 "APPROVED" rfl).trans (by decide)⟩

/-- C6: the batch-change accessory summary renders
"{merged} / {closed+merged+open} / {total}" when total is positive and nothing
when total is zero. -/
theorem c6_accessorySummary (s : ChangesetsStats) :
    (s.total ≠ 0 → batchChangeAccessoryTitle s =
      some (toString s.merged ++ " / " ++ toString (s.closed + s.merged + s.«open») ++ " / "
        ++ toString s.total)) ∧
    (s.total = 0 → batchChangeAccessoryTitle s = none) := by
  constructor
  · intro h
    simp [batchChangeAccessoryTitle, h]
  · intro h
    simp [batchChangeAccessoryTitle, h]

/-- C6 witness: total 10, open 3, closed 2, merged 5 renders "5 / 10 / 10", and a
zero total renders nothing. -/
theorem c6_accessorySummary_witness :
    batchChangeAccessoryTitle sampleStats = some "5 / 10 / 10" ∧
    batchChangeAccessoryTitle ⟨0, 0, 0, 0, 0⟩ = none :=
  ⟨((c6_accessorySummary sampleStats).1 (by decide)).trans (by decide),
   (c6_accessorySummary ⟨0, 0, 0, 0, 0⟩).2 rfl⟩

/-- C7 counterexample: with creator display name "alice" and an unparsable
last-updated timestamp (the relative-time boundary yields nothing), the rendered
subtitle is just "alice" — not the claimed no-relative-time form "by alice". -/
theorem c7_counterexample :
    batchChangeSubtitle sampleBatchChange none = "alice" ∧
    batchChangeSubtitle sampleBatchChange none ≠ "by alice" := by
  constructor <;> decide

/-- C7 (amended): an unparsable last-updated timestamp never throws past the
projector (the embedding is total) and the subtitle degrades to just the creator
name with no "by " prefixed, while a timestamp that parses to a nonempty
relative time renders "by {creator}, updated {relativeTime}". -/
theorem c7_subtitleDegradation (b : BatchChange) (updated : Option String) :
    (updated = none → batchChangeSubtitle b updated = author b.creator) ∧
    (∀ u, updated = some u → u ≠ "" →
      batchChangeSubtitle b updated = "by " ++ author b.creator ++ ", updated " ++ u) := by
  constructor
  · intro h
    subst h
    rfl
  · intro u h hu
    subst h
    simp [batchChangeSubtitle, hu]

/-- C7 witness: the sample batch change with a failed parse renders the bare
creator name, and with relative time "2 days ago" renders the full form. -/
theorem c7_subtitleDegradation_witness :
    batchChangeSubtitle sampleBatchChange none = author sampleBatchChange.creator ∧
    batchChangeSubtitle sampleBatchChange (some "2 days ago") =
      "by " ++ author sampleBatchChange.creator ++ ", updated " ++ "2 days ago" :=
  ⟨(c7_subtitleDegradation sampleBatchChange none).1 rfl,
   (c7_subtitleDegradation sampleBatchChange (some "2 days ago")).2 "2 days ago" rfl
     (by decide)⟩

/-- C8 counterexample: a changeset whose external URL is present but empty does
not get that external URL as its canonical URL — the code's JS falsiness check
falls through to the constructed batch-change URL instead. -/
theorem c8_counterexample :
    emptyExternalURLChangeset.externalURL = some ⟨""⟩ ∧
    changesetURL sampleSrc sampleBatchChange emptyExternalURLChangeset =
      "https://sourcegraph.example.com/batch-changes/1?status=CLOSED" ∧
    changesetURL sampleSrc sampleBatchChange emptyExternalURLChangeset ≠ "" := by
  refine ⟨rfl, by decide, by decide⟩

/-- C8 (amended): the canonical URL equals the external URL when one is present
with a nonempty url string; otherwise (absent external URL, or one holding the
empty string) it is the instance base URL, the batch change's URL and the
"?status={state}" query suffix. -/
theorem c8_canonicalURL (src : Sourcegraph) (b : BatchChange) (c : Changeset) :
    (∀ e, c.externalURL = some e → e.url ≠ "" → changesetURL src b c = e.url) ∧
    (c.externalURL = none →
      changesetURL src b c = src.«instance» ++ b.url ++ "?status=" ++ c.state.toStr) ∧
    (∀ e, c.externalURL = some e → e.url = "" →
      changesetURL src b c = src.«instance» ++ b.url ++ "?status=" ++ c.state.toStr) := by
  refine ⟨?_, ?_, ?_⟩
  · intro e he hu
    simp [changesetURL, he, hu]
  · intro h
    simp [changesetURL, h]
  · intro e he hu
    simp [changesetURL, he, hu]

/-- C8 witness: the CLOSED sample without an external URL, and the CLOSED sample
whose external URL holds the empty string, both resolve to
instance + batch-change URL + "?status=CLOSED". -/
theorem c8_canonicalURL_witness :
    changesetURL sampleSrc sampleBatchChange closedNoURLChangeset =
      "https://sourcegraph.example.com/batch-changes/1?status=CLOSED" ∧
    changesetURL sampleSrc sampleBatchChange emptyExternalURLChangeset =
      "https://sourcegraph.example.com/batch-changes/1?status=CLOSED" :=
  ⟨((c8_canonicalURL sampleSrc sampleBatchChange closedNoURLChangeset).2.1 rfl).trans
     (by decide),
   ((c8_canonicalURL sampleSrc sampleBatchChange emptyExternalURLChangeset).2.2
      ⟨""⟩ rfl rfl).trans (by decide)⟩

/-- C9 counterexample: with exactly 100 batch changes returned (the page-size
cap), the section subtitle shows the plain count "100 batch changes", not the
claimed "100+". -/
theorem c9_counterexample :
    batchChangesSectionSubtitle 100 = "100 batch changes" ∧
    batchChangesSectionSubtitle 100 ≠ "100+ batch changes" := by
  constructor <;> decide

/-- C9 (amended): the "+" suffix appears only when the count strictly exceeds
100 — counts of 100 or below, the cap included, display the plain count. -/
theorem c9_sectionSubtitle (count : Nat) :
    (100 < count →
      batchChangesSectionSubtitle count = toString count ++ "+" ++ " batch changes") ∧
    (count ≤ 100 →
      batchChangesSectionSubtitle count = toString count ++ " batch changes") := by
  constructor
  · intro h
    unfold batchChangesSectionSubtitle
    rw [if_pos h]
  · intro h
    unfold batchChangesSectionSubtitle
    rw [if_neg (by omega)]

/-- C9 witness: 101 renders with the "+" suffix, 100 renders plain. -/
theorem c9_sectionSubtitle_witness :
    batchChangesSectionSubtitle 101 = "101+ batch changes" ∧
    batchChangesSectionSubtitle 100 = "100 batch changes" :=
  ⟨((c9_sectionSubtitle 101).1 (by decide)).trans (by decide),
   ((c9_sectionSubtitle 100).2 (by decide)).trans (by decide)⟩

/-- C3: the retry (FAILED) and publish (UNPUBLISHED) handlers call the publish
endpoint with a fresh AbortController signal (not the list's cancel ref), then
show the success toast whose title distinguishes retry from publishing, then
sleep the fixed 10000 ms and invoke exactly one refresh of the enclosing
changeset list — and never a refresh of the batch-change list. -/
theorem c3_publishFlow (b : BatchChange) (c : Changeset) :
    (c.state = .failed →
      publishActionSteps b c =
        some [.publishCall .freshAbortController b.id c.id,
              .showSuccessToast "Changeset has been submitted for retry!",
              .sleep 10000, .refreshChangesets]) ∧
    (c.state = .unpublished →
      publishActionSteps b c =
        some [.publishCall .freshAbortController b.id c.id,
              .showSuccessToast "Changeset has been submitted for publishing!",
              .sleep 10000, .refreshChangesets]) ∧
    (∀ l, publishActionSteps b c = some l →
      l.countP isRefreshChangesets = 1 ∧ l.countP isRefreshBatchChanges = 0) := by
  rcases c with ⟨id, st, rs, eid, eu, repo, upd⟩
  cases st <;>
    simp [publishActionSteps, delayedRefreshChangesets, List.countP_cons,
      isRefreshChangesets, isRefreshBatchChanges]

/-- C3 witness: the FAILED sample's handler trace is publish call with fresh
signal, retry success toast, 10000 ms sleep, one changeset-list refresh. -/
theorem c3_publishFlow_witness :
    publishActionSteps sampleBatchChange failedChangeset =
      some [.publishCall .freshAbortController sampleBatchChange.id failedChangeset.id,
            .showSuccessToast "Changeset has been submitted for retry!",
            .sleep 10000, .refreshChangesets] :=
  (c3_publishFlow sampleBatchChange failedChangeset).1 rfl

/-- C10: a load() that fails with a non-cancellation error ends with empty items
and isLoading false — the call step cleared the items and the failure path never
restores them, so a failed refresh blanks the previously displayed list. -/
theorem c10_failureBlanksItems {T : Type} (errTitle err : String) (s : LoopState T) :
    (stepResolve errTitle (stepCall errTitle s) (Outcome.failure err)).fetch.items = [] ∧
    (stepResolve errTitle (stepCall errTitle s) (Outcome.failure err)).fetch.isLoading
      = false := by
  rcases s with ⟨f, pending, nextId, toasts, itemsFrom⟩
  cases pending <;> simp [stepCall, stepResolve]

/-- C1 counterexample: two back-to-back load() calls. Aborting the superseded
first request rejects its promise, and its undiscriminated catch block sets
isLoading to false after the second call set it to true — an observable effect
of the superseded load on isLoading while the newest request is still in
flight. -/
theorem c1_counterexample : ¬ onlyLatestLoadApplies := by
  intro h
  exact absurd (h [.call, .call] (by decide)) (by decide)

/-- One event preserves the staleness property. -/
theorem latestWins_step {T : Type} (errTitle : String) (s : LoopState T)
    (e : FetchEvent T) (h : latestWins s) : latestWins (step errTitle s e) := by
  obtain ⟨hp, hi, hn⟩ := h
  rcases s with ⟨f, pending, nextId, toasts, itemsFrom⟩
  cases e with
  | call =>
      cases pending <;> simp_all [step, stepCall, latestWins]
  | resolve o =>
      cases o with
      | success resp =>
          cases pending <;> simp_all [step, stepResolve, latestWins]
      | failure err =>
          cases pending <;> simp_all [step, stepResolve, latestWins]

/-- Any event sequence preserves the staleness property. -/
theorem latestWins_run {T : Type} (errTitle : String) (events : List (FetchEvent T))
    (s : LoopState T) (h : latestWins s) : latestWins (run errTitle s events) := by
  induction events generalizing s with
  | nil => exact h
  | cons e rest ih =>
      simp only [run, List.foldl_cons]
      exact ih (step errTitle s e) (latestWins_step errTitle s e h)

/-- C1 (amended): a superseded load's success response is never applied — after
any event sequence from mount, the items are either the cleared empty list or
the success response of the most recent load() call (ids are issued in call
order, so the most recent call has id nextId - 1). The original claim's
isLoading half fails: a superseded load's cancellation rejection observably sets
isLoading to false over the newer request's loading state. -/
theorem c1_latestResponseOnly {T : Type} (errTitle : String)
    (events : List (FetchEvent T)) :
    (∀ i, (run errTitle initState events).itemsFrom = some i →
      i + 1 = (run errTitle initState events).nextId) ∧
    ((run errTitle initState events).itemsFrom = none →
      (run errTitle initState events).fetch.items = []) := by
  have h := latestWins_run errTitle events initState
    ⟨fun i hi => by simp [initState] at hi,
     fun i hi => by simp [initState] at hi,
     fun _ => rfl⟩
  exact ⟨h.2.1, h.2.2⟩

/-- C1 amended-claim witness: a load followed by its own success response yields
items stamped with the most recent request id. -/
theorem c1_latestResponseOnly_witness :
    0 + 1 = (run getBatchChangesTitle initState
      ([.call, .resolve (.success (some [()]))] : List (FetchEvent Unit))).nextId :=
  (c1_latestResponseOnly getBatchChangesTitle
    ([.call, .resolve (.success (some [()]))] : List (FetchEvent Unit))).1 0 (by decide)

/-- C2 counterexample: two back-to-back load() calls contain no non-cancellation
failure, yet a failure toast is shown — the catch block does not discriminate
the abort rejection of the superseded request, so the cancellation surfaces as a
user-visible error report. -/
theorem c2_counterexample : ¬ cancellationSuppressed := by
  intro h
  exact absurd (h [.call, .call]) (by decide)

/-- C2 (amended): cancellation is not distinguished from other failures — every
load() failure path, the abort rejection of a superseded request included, sets
isLoading to false and surfaces the same failure toast carrying the error's
string form and a "View details" action; for a superseded request, this happens
over the newer request's just-set loading state. -/
theorem c2_failureUniform {T : Type} (errTitle err : String) (s : LoopState T) :
    (s.pending.isSome = true →
      (stepCall errTitle s).toasts = s.toasts ++ [failureToast errTitle abortErrorString] ∧
      (stepCall errTitle s).fetch.isLoading = false) ∧
    (s.pending.isSome = true →
      (stepResolve errTitle s (Outcome.failure err)).toasts
        = s.toasts ++ [failureToast errTitle err] ∧
      (stepResolve errTitle s (Outcome.failure err)).fetch.isLoading = false) := by
  rcases s with ⟨f, pending, nextId, toasts, itemsFrom⟩
  cases pending <;> simp [stepCall, stepResolve]

/-- C2 amended-claim witness: a second load() call superseding an in-flight one
ends with isLoading false — the cancelled request's catch ran over it. -/
theorem c2_failureUniform_witness :
    (stepCall getBatchChangesTitle
      (stepCall getBatchChangesTitle (initState (T := Unit)))).fetch.isLoading = false :=
  ((c2_failureUniform getBatchChangesTitle "err"
      (stepCall getBatchChangesTitle (initState (T := Unit)))).1 (by decide)).2

end SG
